import Mathlib

/-!
# Shallow embedding of the dotfiles-maintainer memory tools

This file embeds the Python sources of the repository
(`src/dotfiles_maintainer/...`) into Lean 4 and proves the frozen claims
about them.

Modelling conventions:

* Python runtime values returned by the external `mem0` client are modelled
  by the inductive `PyVal` (None, bool, int, str, list, dict).  A Python
  `TypedDict` instance is, at runtime, a plain `dict`, so `SearchResult`
  values constructed by `MemoryManager._validate_search_result` are
  `PyVal.dict` values here.
* A Python exception is modelled as `Except String α`: `Except.error e`
  carries `str(e)`.  A `try/except` block is a `match` on the `Except`.
* The external `mem0.AsyncMemory` client is modelled as `Mem0Client`, a
  record of uninterpreted behaviours: each operation maps its arguments to
  an outcome.  Each manager/tool embedding additionally returns the list of
  client calls it performed (`List ClientCall`), used by the frame claims.
* The secret-redaction function `redact_secrets` lives in
  `utils/secrets.py`, which only matters to the claims through the fact
  that it is applied; it is passed as an abstract parameter
  `redact : String → String`.
* The VCS helper (`utils/vcs.py`) is modelled as an oracle describing the
  possible outcomes of `get_vcs_command()` / `get_status()` /
  `detect_vcs_type()` / `get_log()`; the helper takes no reference to the
  memory manager, so it cannot perform memory writes.
-/

namespace DotfilesMaintainer

/-- Python runtime values as returned by the mem0 client and constructed by
`MemoryManager._validate_search_result`.  Dicts are association lists with
(unique) string keys. -/
inductive PyVal where
  | none
  | bool (b : Bool)
  | int (n : Int)
  | str (s : String)
  | list (xs : List PyVal)
  | dict (entries : List (String × PyVal))

/-- Name of the Python type of a value, as in `type(x).__name__`. -/
def PyVal.pyType : PyVal → String
  | .none => "NoneType"
  | .bool _ => "bool"
  | .int _ => "int"
  | .str _ => "str"
  | .list _ => "list"
  | .dict _ => "dict"

/-- Python truthiness (`bool(x)`) of a value: `None`, `False`, `0`, and
empty containers/strings are falsy. -/
def PyVal.isFalsy : PyVal → Bool
  | .none => true
  | .bool b => !b
  | .int n => n == 0
  | .str s => s.isEmpty
  | .list xs => xs.isEmpty
  | .dict es => es.isEmpty

/-- `isinstance(x, dict)`. -/
def PyVal.isDict : PyVal → Bool
  | .dict _ => true
  | _ => false

/-- `isinstance(x, str)`. -/
def PyVal.isStr : PyVal → Bool
  | .str _ => true
  | _ => false

/-- Key lookup in a dict's entry list (keys are unique, so the first match
is the binding). -/
def dictLookup (entries : List (String × PyVal)) (k : String) : Option PyVal :=
  match entries.find? (fun e => e.1 == k) with
  | some e => some e.2
  | Option.none => Option.none

/-- `"k" in x` for a dict `x` (False on non-dicts, matching
`isinstance(item, dict) and "id" in item` short-circuiting). -/
def PyVal.hasKey : PyVal → String → Bool
  | .dict es, k => es.any (fun e => e.1 == k)
  | _, _ => false

/-- The method call `x.get(k, default)`.  On a non-dict object the
attribute `get` does not exist and an `AttributeError` is raised. -/
def pyDictGet (v : PyVal) (k : String) (default : PyVal) : Except String PyVal :=
  match v with
  | .dict es => .ok ((dictLookup es k).getD default)
  | other =>
      .error ("\x27" ++ other.pyType ++ "\x27 object has no attribute \x27get\x27")

/-- Attribute access `x.attr` on a plain Python data value.  The builtin
types modelled by `PyVal` (`NoneType`, `bool`, `int`, `str`, `list`,
`dict`) expose no data attributes: a `dict`'s keys are *not* attributes,
so `d.results` on a dict raises `AttributeError` even when the key
`"results"` is present.  The only attributes these builtins do have are
methods (`get`, `items`, ...), and no attribute accessed via plain
`x.attr` in this repository (`results`) is among them; hence access always
raises. -/
def py_getattr (v : PyVal) (attr : String) : Except String PyVal :=
  .error ("\x27" ++ v.pyType ++ "\x27 object has no attribute \x27" ++ attr ++ "\x27")

/-- Whitespace removal from the front of a character list (helper for
`pyStrip`). -/
def stripLeading : List Char → List Char
  | [] => []
  | c :: cs => if c.isWhitespace then stripLeading cs else c :: cs

/-- Python `str.strip()`: remove leading and trailing whitespace. -/
def pyStrip (s : String) : String :=
  ⟨(stripLeading ((stripLeading s.data).reverse)).reverse⟩

/-- Splitting a character list at newlines (helper for `pySplitlines`). -/
def splitLinesAux : List Char → List Char → List (List Char)
  | [], acc => [acc.reverse]
  | c :: cs, acc =>
      if c = '\n' then acc.reverse :: splitLinesAux cs []
      else splitLinesAux cs (c :: acc)

/-- Python `str.splitlines()` (for `\n`-separated subprocess output): the
final segment is dropped when empty, so a trailing newline produces no
empty line and `"".splitlines() == []`. -/
def pySplitlines (s : String) : List String :=
  let segs := (splitLinesAux s.data []).map (fun l => String.mk l)
  match segs.getLast? with
  | some l => if l.isEmpty then segs.dropLast else segs
  | Option.none => segs

/-- Metadata values: Python `dict[str, str | bool]`. -/
inductive MetaVal where
  | str (s : String)
  | bool (b : Bool)
deriving Repr, DecidableEq

/-- A metadata mapping `dict[str, str | bool]`. -/
abbrev Metadata := List (String × MetaVal)

/-- One call made to the external mem0 client. -/
inductive ClientCall where
  | add (text user_id : String) (metadata : Option Metadata)
  | search (query user_id : String) (limit : Nat)
  | update (data memory_id : String)
deriving DecidableEq

/-- The external `mem0.AsyncMemory` client, as an oracle: each operation
maps its arguments to an outcome (`Except.error e` models the client
raising an exception whose `str` is `e`). -/
structure Mem0Client where
  addResult : String → String → Option Metadata → Except String PyVal
  searchResult : String → String → Nat → Except String PyVal
  updateResult : String → String → Except String PyVal

/-- `isinstance(item, dict) and "id" in item and "memory" in item`:
the per-item shape check of `MemoryManager._validate_search_result`. -/
def isValidMemoryItem (v : PyVal) : Bool :=
  v.isDict && v.hasKey "id" && v.hasKey "memory"

/-- `MemoryManager._validate_search_result` (core/memory.py, lines 35-63).
Validates and converts a mem0 response to a `SearchResult` (at runtime a
plain dict with keys `"results"` and `"relations"`); raises `TypeError`
on a value that is neither dict nor list. -/
def validate_search_result (result : PyVal) : Except String PyVal :=
  match result with
  | .list items =>
      .ok (.dict [("results", .list (items.filter isValidMemoryItem)),
                  ("relations", .none)])
  | .dict entries =>
      let results_list : List PyVal :=
        match dictLookup entries "results" with
        | some (.list items) => items.filter isValidMemoryItem
        | _ => []
      .ok (.dict [("results", .list results_list),
                  ("relations", (dictLookup entries "relations").getD .none)])
  | other =>
      .error ("Expected dict or list, got <class \x27" ++ other.pyType ++ "\x27>")

namespace MemoryManager

/-- `MemoryManager.add_with_redaction` (core/memory.py, lines 65-77):
calls `self.client.add(redact_secrets(text), user_id=self.user_id,
metadata=metadata)` and re-raises any exception after logging.  Returns
the outcome together with the client calls performed. -/
def add_with_redaction (redact : String → String) (client : Mem0Client)
    (user_id text : String) (metadata : Option Metadata) :
    Except String PyVal × List ClientCall :=
  (client.addResult (redact text) user_id metadata,
   [ClientCall.add (redact text) user_id metadata])

/-- `MemoryManager.search` (core/memory.py, lines 79-100): calls
`self.client.search(query, user_id=self.user_id, limit=limit)`; on a falsy
result returns `{"results": [], "relations": None}`; otherwise validates;
any exception is wrapped into `MemorySearchError(f"Failed to search: {e}")`. -/
def search (client : Mem0Client) (user_id query : String) (limit : Nat) :
    Except String PyVal × List ClientCall :=
  let call := ClientCall.search query user_id limit
  match client.searchResult query user_id limit with
  | .error e => (.error ("Failed to search: " ++ e), [call])
  | .ok result =>
      if result.isFalsy then
        (.ok (.dict [("results", .list []), ("relations", .none)]), [call])
      else
        match validate_search_result result with
        | .ok v => (.ok v, [call])
        | .error e => (.error ("Failed to search: " ++ e), [call])

/-- `MemoryManager.update` (core/memory.py, lines 102-112): calls
`self.client.update(data=redact_secrets(text), memory_id=memory_id)` and
re-raises any exception after logging. -/
def update (redact : String → String) (client : Mem0Client)
    (memory_id text : String) : Except String PyVal × List ClientCall :=
  (client.updateResult (redact text) memory_id,
   [ClientCall.update (redact text) memory_id])

end MemoryManager

/-! ## Entity types

`core/types.py` is not present under `src/`; these record types are
modelled from the spec's data-model section ("AppConfig: app name,
source/destination paths, file-structure classification, dependency list";
"SystemMetadata: OS version, shell, terminal, editor, VCS, package
manager, CPU, free-form extra field"; "AppChange: app name, change type,
description, rationale, improvement metric, optional VCS commit id";
"DriftResult: status enum (clean/modified/error), VCS type, modified file
list, change count, message") together with the field names used by the
sources (`cli.py`, `tools/*.py`). -/

/-- Modelled from the spec: `AppConfig` of the missing `core/types.py` —
app name, source/destination paths, file-structure classification,
dependency list (field names as used in `cli.py`). -/
structure AppConfig where
  app_name : String
  source_path : String
  destination_path : String
  file_structure : String
  dependencies : List String
deriving Repr, DecidableEq

/-- Modelled from the spec: `SystemMetadata` of the missing
`core/types.py` — OS version, shell, terminal, prompt engine, editor,
VCS, package manager, CPU, free-form extra field (field names as used in
`cli.py`). -/
structure SystemMetadata where
  os_version : String
  main_shell : String
  main_terminal_emulator : String
  main_prompt_engine : String
  main_editor : String
  version_control : String
  package_manager : String
  cpu : String
  extra : String
deriving Repr, DecidableEq

/-- Modelled from the spec: `AppChange` of the missing `core/types.py` —
app name, change type, description, rationale, improvement metric,
optional VCS commit id (field names as used in `tools/changes.py`). -/
structure AppChange where
  app_name : String
  change_type : String
  description : String
  rationale : String
  improvement_metric : String
  vcs_commit_id : Option String
deriving Repr, DecidableEq

/-- Modelled from the spec: `DriftResult` of the missing `core/types.py` —
status enum (clean/modified/error), VCS type, modified file list, change
count, message.  At runtime a `TypedDict`; the status literals are the
strings used in `tools/drift.py`. -/
structure DriftResult where
  status : String
  vcs_type : String
  modified_files : List String
  total_changes : Nat
  message : String
deriving Repr, DecidableEq

/-- Python `repr` of a string (our data contains no quotes to escape). -/
def pyq (s : String) : String := "\x27" ++ s ++ "\x27"

/-- Python `repr` of a list of strings. -/
def pyStrListRepr (xs : List String) : String :=
  "[" ++ String.intercalate ", " (xs.map pyq) ++ "]"

mutual

/-- Python `str`/`repr` of a data value (used when a mem0 response is
interpolated into an f-string). -/
def PyVal.pyRepr : PyVal → String
  | .none => "None"
  | .bool true => "True"
  | .bool false => "False"
  | .int n => toString n
  | .str s => pyq s
  | .list xs => "[" ++ pyReprJoin xs ++ "]"
  | .dict es => "\x7b" ++ pyReprEntries es ++ "\x7d"

/-- Comma-joined reprs of list elements. -/
def pyReprJoin : List PyVal → String
  | [] => ""
  | [x] => x.pyRepr
  | x :: y :: xs => x.pyRepr ++ ", " ++ pyReprJoin (y :: xs)

/-- Comma-joined reprs of dict entries. -/
def pyReprEntries : List (String × PyVal) → String
  | [] => ""
  | [(k, v)] => pyq k ++ ": " ++ v.pyRepr
  | (k, v) :: e :: es => pyq k ++ ": " ++ v.pyRepr ++ ", " ++ pyReprEntries (e :: es)

end

/-- Python `repr` of an `AppConfig` TypedDict instance (a dict repr). -/
def AppConfig.pyRepr (c : AppConfig) : String :=
  "\x7b" ++ pyq "app_name" ++ ": " ++ pyq c.app_name ++
  ", " ++ pyq "source_path" ++ ": " ++ pyq c.source_path ++
  ", " ++ pyq "destination_path" ++ ": " ++ pyq c.destination_path ++
  ", " ++ pyq "file_structure" ++ ": " ++ pyq c.file_structure ++
  ", " ++ pyq "dependencies" ++ ": " ++ pyStrListRepr c.dependencies ++ "\x7d"

/-- Python `repr` of a list of `AppConfig` TypedDict instances. -/
def appConfigListRepr (cs : List AppConfig) : String :=
  "[" ++ String.intercalate ", " (cs.map AppConfig.pyRepr) ++ "]"

/-- Python `repr` of a `SystemMetadata` TypedDict instance. -/
def SystemMetadata.pyRepr (m : SystemMetadata) : String :=
  "\x7b" ++ pyq "os_version" ++ ": " ++ pyq m.os_version ++
  ", " ++ pyq "main_shell" ++ ": " ++ pyq m.main_shell ++
  ", " ++ pyq "main_terminal_emulator" ++ ": " ++ pyq m.main_terminal_emulator ++
  ", " ++ pyq "main_prompt_engine" ++ ": " ++ pyq m.main_prompt_engine ++
  ", " ++ pyq "main_editor" ++ ": " ++ pyq m.main_editor ++
  ", " ++ pyq "version_control" ++ ": " ++ pyq m.version_control ++
  ", " ++ pyq "package_manager" ++ ": " ++ pyq m.package_manager ++
  ", " ++ pyq "cpu" ++ ": " ++ pyq m.cpu ++
  ", " ++ pyq "extra" ++ ": " ++ pyq m.extra ++ "\x7d"

/-! ## VCS oracle

`utils/vcs.py` shells out to `git`/`jj`; its possible outcomes as seen by
`tools/drift.py` and `tools/history.py` are modelled as oracles.  The
helper functions take no reference to the memory manager, so they perform
no memory calls. -/

/-- Outcome of `get_vcs_command()` followed by `vcs_cmd.get_status(...)`
in `check_config_drift`: detection may raise, the status command may
raise, or both succeed yielding the VCS type and the status output. -/
inductive VCSOutcome where
  | fail_detect (e : String)
  | fail_status (vcs_type e : String)
  | ok (vcs_type output : String)
deriving Repr, DecidableEq

/-- Outcome of `detect_vcs_type()` followed by
`VCSCommand(vcs).get_log(...)` in `ingest_version_history`. -/
inductive LogOutcome where
  | fail_detect (e : String)
  | fail_log (vcs e : String)
  | ok (vcs output : String)
deriving Repr, DecidableEq

/-! ## Tool functions -/

/-- `initialize_system_baseline` (tools/baseline.py, lines 14-69):
formats the baseline report, stores it with metadata
`{"type": "baseline"}`, and returns a confirmation string; on any
exception returns `f"Failed to Initialize Baseline: {e}"`. -/
def initialize_system_baseline (redact : String → String) (client : Mem0Client)
    (user_id manager_name : String) (config_map : List AppConfig)
    (system_metadata : SystemMetadata) : String × List ClientCall :=
  let data := "User System -> dotfile_manager: " ++ manager_name ++
    "\nconfigs: " ++ appConfigListRepr config_map ++
    "\nsystem_metadata: " ++ system_metadata.pyRepr
  let added := MemoryManager.add_with_redaction redact client user_id data
    (some [("type", .str "baseline")])
  (match added.1 with
   | .ok _ => "System Baseline Initialized:\n" ++ data
   | .error e => "Failed to Initialize Baseline: " ++ e,
   added.2)

/-- `commit_contextual_change` (tools/changes.py, lines 15-70): formats
the change message (appending the VCS commit line when
`data.get("vcs_commit_id")` is truthy), stores it with metadata
`{"type": "change"}`, and returns `f"Success: {result}"`; on any
exception returns `f"Error: {e}"`. -/
def commit_contextual_change (redact : String → String) (client : Mem0Client)
    (user_id : String) (data : AppChange) : String × List ClientCall :=
  let msg := data.app_name ++ " change(" ++ data.change_type ++ ") -> " ++
    data.description ++ " \n Why? " ++ data.rationale ++
    " \n Improvement: " ++ data.improvement_metric ++ " "
  let msg := match data.vcs_commit_id with
    | some cid => if cid.isEmpty then msg else msg ++ "\nVCS Commit: " ++ cid
    | Option.none => msg
  let added := MemoryManager.add_with_redaction redact client user_id msg
    (some [("type", .str "change")])
  (match added.1 with
   | .ok result => "Success: " ++ result.pyRepr
   | .error e => "Error: " ++ e,
   added.2)

/-- `check_config_drift` (tools/drift.py, lines 16-95): detects the VCS,
runs the status command, and returns a `DriftResult`; on non-empty status
output it first stores the drift message with metadata
`{"type": "drift", "vcs": vcs_type}`.  Any exception yields the
`status="error"` result with `vcs_type="git"`. -/
def check_config_drift (redact : String → String) (client : Mem0Client)
    (user_id : String) (env : VCSOutcome) : DriftResult × List ClientCall :=
  match env with
  | .fail_detect e =>
      (⟨"error", "git", [], 0, "Error checking drift: " ++ e⟩, [])
  | .fail_status _ e =>
      (⟨"error", "git", [], 0, "Error checking drift: " ++ e⟩, [])
  | .ok vcs_type output =>
      if (pyStrip output).isEmpty then
        (⟨"clean", vcs_type, [], 0,
          "No drift detected. System matches repository state."⟩, [])
      else
        let modified_files :=
          ((pySplitlines output).map pyStrip).filter (fun l => !l.isEmpty)
        let message := "Drift detected at " ++ vcs_type ++ " level:\n" ++ output
        let added := MemoryManager.add_with_redaction redact client user_id
          message (some [("type", .str "drift"), ("vcs", .str vcs_type)])
        (match added.1 with
         | .ok _ =>
             ⟨"modified", vcs_type, modified_files, modified_files.length,
               message⟩
         | .error e =>
             ⟨"error", "git", [], 0, "Error checking drift: " ++ e⟩,
         added.2)

/-- `ingest_version_history` (tools/history.py, lines 15-66): reads the
VCS log, stores it with metadata `{"type": "history"}`, and returns the
confirmation string; on any exception returns
`f"Error ingesting history: {e}"`. -/
def ingest_version_history (redact : String → String) (client : Mem0Client)
    (user_id : String) (env : LogOutcome) (count : Nat) :
    String × List ClientCall :=
  match env with
  | .fail_detect e => ("Error ingesting history: " ++ e, [])
  | .fail_log _ e => ("Error ingesting history: " ++ e, [])
  | .ok vcs output =>
      let added := MemoryManager.add_with_redaction redact client user_id
        ("Historical Context (" ++ vcs ++ "):\n" ++ output)
        (some [("type", .str "history")])
      (match added.1 with
       | .ok _ =>
           "Ingested last " ++ toString count ++ " " ++ vcs ++
             " commit into memory."
       | .error e => "Error ingesting history: " ++ e,
       added.2)

/-- `track_lifecycle_events` (tools/lifecycle.py, lines 16-71): formats
the lifecycle message (mentioning the replacement when `new_config` is
truthy), stores it with metadata `{"type": "lifecycle"}`, and returns the
confirmation; on any exception returns
`f"Failed to log Lifecycle Event: {e}"`. -/
def track_lifecycle_events (redact : String → String) (client : Mem0Client)
    (user_id action : String) (old_config : AppConfig)
    (new_config : Option AppConfig) (logic : String) :
    String × List ClientCall :=
  let msg := "Lifecycle Event: " ++ action ++ " on " ++ old_config.app_name ++ ". "
  let msg := match new_config with
    | some nc => msg ++ "Replaced by " ++ nc.app_name ++ ". "
    | Option.none => msg
  let msg := msg ++ "Logic: " ++ logic
  let added := MemoryManager.add_with_redaction redact client user_id msg
    (some [("type", .str "lifecycle")])
  (match added.1 with
   | .ok _ => msg ++ " has been logged in memory"
   | .error e => "Failed to log Lifecycle Event: " ++ e,
   added.2)

/-- `log_conceptual_roadmap` (tools/roadmap.py, lines 16-56): formats the
roadmap message, stores it with metadata
`{"type": "roadmap", "priority": priority}`, and returns
`"Roadmap Entry saved"`; on any exception returns
`f"Failed to save Roadmap Entry: {e}"`. -/
def log_conceptual_roadmap (redact : String → String) (client : Mem0Client)
    (user_id idea_title hypothesis blockers priority : String) :
    String × List ClientCall :=
  let msg := "Roadmap Idea: " ++ idea_title ++ "\nHypothesis: " ++ hypothesis ++
    "\nBlockers: " ++ blockers ++ "\nPriority: " ++ priority
  let added := MemoryManager.add_with_redaction redact client user_id msg
    (some [("type", .str "roadmap"), ("priority", .str priority)])
  (match added.1 with
   | .ok _ => "Roadmap Entry saved"
   | .error e => "Failed to save Roadmap Entry: " ++ e,
   added.2)

/-- `query_roadmap` (tools/roadmap.py, lines 59-92): builds the query
string, searches, then evaluates `search_results.results` — an attribute
access on the plain dict returned by `MemoryManager.search`, which raises
`AttributeError`; the `except` handler returns `[]`.  Any search failure
also returns `[]`. -/
def query_roadmap (client : Mem0Client) (user_id status : String)
    (priority : Option String) : PyVal × List ClientCall :=
  let query := "roadmap " ++ status
  let query := match priority with
    | some p => if p.isEmpty then query else query ++ " " ++ p ++ " priority"
    | Option.none => query
  let sr := MemoryManager.search client user_id query 10
  (match sr.1 with
   | .error _ => .list []
   | .ok search_results =>
      match py_getattr search_results "results" with
      | .ok v => v
      | .error _ => .list [],
   sr.2)

/-- `manage_trial` (tools/trials.py, lines 15-51): formats the trial
message, stores it with metadata `{"type": "trial", "active": True}`, and
returns the confirmation; on any exception returns
`f"Failed to set Trial for {name}: {e}"`. -/
def manage_trial (redact : String → String) (client : Mem0Client)
    (user_id name : String) (trial_period : Nat) (success_criteria : String) :
    String × List ClientCall :=
  let msg := "Tool/Plugin Trial: " ++ name ++ " for " ++ toString trial_period ++
    " days. Success if: " ++ success_criteria
  let added := MemoryManager.add_with_redaction redact client user_id msg
    (some [("type", .str "trial"), ("active", .bool true)])
  (match added.1 with
   | .ok _ => toString trial_period ++ " days Trial has been set for " ++ name
   | .error e => "Failed to set Trial for " ++ name ++ ": " ++ e,
   added.2)

/-- `list_active_trials` (tools/trials.py, lines 54-79): discards
`min_days_active` (`_ = min_days_active`), searches for the fixed string
`"active plugin trials"`, and returns `raw_results.get("results", [])`;
on any exception returns `[]`. -/
def list_active_trials (client : Mem0Client) (user_id : String)
    (min_days_active : Int) : PyVal × List ClientCall :=
  let _ := min_days_active
  let sr := MemoryManager.search client user_id "active plugin trials" 10
  (match sr.1 with
   | .error _ => .list []
   | .ok raw_results =>
      match pyDictGet raw_results "results" (.list []) with
      | .ok v => v
      | .error _ => .list [],
   sr.2)

/-- `log_troubleshooting_event` (tools/troubleshooting.py, lines 15-48):
formats the troubleshooting message, stores it with metadata
`{"type": "troubleshoot"}`, and returns the confirmation; on any
exception returns
`f"Failed to add {error_signature} troubleshooting to memory: {e}"`. -/
def log_troubleshooting_event (redact : String → String) (client : Mem0Client)
    (user_id error_signature root_cause fix_steps : String) :
    String × List ClientCall :=
  let msg := "Troubleshooting: " ++ error_signature ++ "\nCause: " ++ root_cause ++
    "\nFix: " ++ fix_steps
  let added := MemoryManager.add_with_redaction redact client user_id msg
    (some [("type", .str "troubleshoot")])
  (match added.1 with
   | .ok _ => "Troubleshooting Knowledge Base Updated. Added: " ++ error_signature
   | .error e =>
      "Failed to add " ++ error_signature ++ " troubleshooting to memory: " ++ e,
   added.2)

/-- `get_troubleshooting_guide` (tools/troubleshooting.py, lines 51-79):
searches for `f"troubleshooting {error_keyword}"` and returns
`raw_results.get("results", [])`; on any exception returns `[]`. -/
def get_troubleshooting_guide (client : Mem0Client)
    (user_id error_keyword : String) : PyVal × List ClientCall :=
  let sr := MemoryManager.search client user_id
    ("troubleshooting " ++ error_keyword) 10
  (match sr.1 with
   | .error _ => .list []
   | .ok raw_results =>
      match pyDictGet raw_results "results" (.list []) with
      | .ok v => v
      | .error _ => .list [],
   sr.2)

/-- `update_memory` (tools/updates.py, lines 14-46): updates the memory
entry through `memory.update` and returns the confirmation; on any
exception returns `f"Error updating memory[{memory_id}]: {e}"`. -/
def update_memory (redact : String → String) (client : Mem0Client)
    (memory_id new_text : String) : String × List ClientCall :=
  let updated := MemoryManager.update redact client memory_id new_text
  (match updated.1 with
   | .ok _ => "Memory " ++ memory_id ++ " updated successfully."
   | .error e => "Error updating memory[" ++ memory_id ++ "]: " ++ e,
   updated.2)

/-! ## Server configuration (config.py)

`ServerConfig` is a pydantic `BaseSettings` model; construction validates
each field and raises on violation.  Only the fields the claims are about
are embedded: `user_id` (`min_length=1, max_length=50`, default
`os.getenv("USER", "default_user")`) and `vcs_timeout`
(`ge=1, le=300, default=10`).  Pydantic measures `min_length`/`max_length`
in characters and `ge`/`le` on the integer value. -/

/-- The validated part of a constructed `ServerConfig`. -/
structure ServerConfigV where
  user_id : String
  vcs_timeout : Int
deriving Repr, DecidableEq

/-- Default for `user_id`: `os.getenv("USER", "default_user")`
(config.py, lines 32-37). -/
def user_id_default (env_user : Option String) : String :=
  env_user.getD "default_user"

/-- Default for `vcs_timeout` (config.py, line 140). -/
def vcs_timeout_default : Int := 10

/-- `ServerConfig` construction (config.py): pydantic validates
`user_id` against `min_length=1`/`max_length=50` and `vcs_timeout`
against `ge=1`/`le=300`, raising a `ValidationError` when a constraint
fails. -/
def mkServerConfig (user_id : String) (vcs_timeout : Int) :
    Except String ServerConfigV :=
  if user_id.length < 1 then
    .error "user_id: String should have at least 1 character"
  else if 50 < user_id.length then
    .error "user_id: String should have at most 50 characters"
  else if vcs_timeout < 1 then
    .error "vcs_timeout: Input should be greater than or equal to 1"
  else if 300 < vcs_timeout then
    .error "vcs_timeout: Input should be less than or equal to 300"
  else
    .ok ⟨user_id, vcs_timeout⟩

/-- Whether construction succeeded. -/
def configAccepted (r : Except String ServerConfigV) : Bool :=
  match r with
  | .ok _ => true
  | .error _ => false

/-! ## Command-line interface (cli.py)

`cli.py` registers exactly three `@app.command()` functions on the typer
app: `drift_check`, `context`, `init_baseline`; typer derives the
kebab-case command names from the function names.  Each command prints a
banner and then `print(result)` of the underlying tool call.  `print` of
a non-string object displays it via `str`; the output stream is modelled
as a list of printed objects so the theorems can speak about the printed
value itself. -/

/-- One object passed to `print` by a CLI command. -/
inductive CLIOut where
  | line (s : String)
  | driftVal (d : DriftResult)
  | pyOut (v : PyVal)

/-- The three commands registered on the typer app (cli.py, lines 21-69):
`drift_check`, `context`, `init_baseline`, under typer's kebab-case
naming. -/
def cli_commands : List String := ["drift-check", "context", "init-baseline"]

/-- The `drift-check` command (cli.py, lines 21-27): prints the banner,
runs `drift.check_config_drift(memory)`, and prints the result. -/
def cli_drift_check (redact : String → String) (client : Mem0Client)
    (user_id : String) (env : VCSOutcome) : List CLIOut :=
  [.line "Checking for drift...",
   .driftVal (check_config_drift redact client user_id env).1]

/-- The `context` command (cli.py, lines 30-36): prints the banner, runs
`queries.get_config_context(memory, app_name)`, and prints the result.
`tools/queries.py` is not present under `src/`, so the tool itself is an
abstract parameter; the command prints whatever it returns. -/
def cli_context (get_config_context : String → PyVal) (app_name : String) :
    List CLIOut :=
  [.line ("Retrieving context for " ++ app_name ++ "..."),
   .pyOut (get_config_context app_name)]

/-- The mock `config_map` hard-coded in the `init-baseline` command
(cli.py, lines 45-53). -/
def cliMockConfigMap : List AppConfig :=
  [⟨"cli-test", "~", "~", "monolithic", []⟩]

/-- The mock `sys_meta` hard-coded in the `init-baseline` command
(cli.py, lines 54-64). -/
def cliMockSysMeta : SystemMetadata :=
  ⟨"CLI-Test-OS", "Zsh", "Terminal", "None", "Vim", "git", "brew",
   "Test-CPU", ""⟩

/-- The `init-baseline` command (cli.py, lines 39-69): prints the banner,
runs `baseline.initialize_system_baseline(memory, "manual-cli",
config_map, sys_meta)` on the fixed mock data, and prints the returned
string. -/
def cli_init_baseline (redact : String → String) (client : Mem0Client)
    (user_id : String) : List CLIOut :=
  [.line "Initializing baseline with mock data...",
   .line (initialize_system_baseline redact client user_id "manual-cli"
            cliMockConfigMap cliMockSysMeta).1]

/-! ## Helper predicates for the claims -/

/-- The `"results"` list of a runtime `SearchResult` dict (empty when the
value is not a dict or the key is missing or not a list). -/
def sr_results : PyVal → List PyVal
  | .dict es =>
      match dictLookup es "results" with
      | some (.list xs) => xs
      | _ => []
  | _ => []

/-- The invariant claimed for every `DriftResult` produced by
`check_config_drift`: a valid status, `total_changes` equal to the number
of modified files, and no modified files on `clean`/`error`. -/
def driftResultInv (r : DriftResult) : Bool :=
  (r.status == "clean" || r.status == "modified" || r.status == "error") &&
  (r.total_changes == r.modified_files.length) &&
  (!(r.status == "clean" || r.status == "error") ||
    (r.modified_files.isEmpty && r.total_changes == 0))

/-- Whether a metadata entry is the binding `k ↦ v`. -/
def metaEntryIs (k : String) (v : MetaVal) (e : String × MetaVal) : Bool :=
  e.1 == k && decide (e.2 = v)

/-- Whether a client call is an `add` whose metadata contains `k ↦ v`. -/
def addCallHasMeta (c : ClientCall) (k : String) (v : MetaVal) : Bool :=
  match c with
  | .add _ _ (some md) => md.any (metaEntryIs k v)
  | _ => false

/-- Whether a client call is an `add` tagged `{"type": tag}`. -/
def addCallTypeIs (c : ClientCall) (tag : String) : Bool :=
  addCallHasMeta c "type" (.str tag)

/-- Whether the VCS oracle reports drift: both commands succeed and the
status output is non-empty after stripping whitespace. -/
def vcsHasDrift : VCSOutcome → Bool
  | .ok _ output => !(pyStrip output).isEmpty
  | _ => false

/-- Whether `detect_vcs_type()` and `get_log()` both succeed in
`ingest_version_history`, i.e. whether execution reaches the store. -/
def vcsLogObtained : LogOutcome → Bool
  | .ok _ _ => true
  | _ => false

/-- A client on which every operation raises an exception with message
`e` (for the error-path claims). -/
def failingClient (e : String) : Mem0Client where
  addResult := fun _ _ _ => .error e
  searchResult := fun _ _ _ => .error e
  updateResult := fun _ _ => .error e

/-- A client on which every operation succeeds, returning `None` (for the
success-path counterexamples). -/
def okClient : Mem0Client where
  addResult := fun _ _ _ => .ok .none
  searchResult := fun _ _ _ => .ok .none
  updateResult := fun _ _ => .ok .none

/-- A client whose search returns a mix of well-shaped and ill-shaped
items (for the shape-validation witness). -/
def mixedClient : Mem0Client where
  addResult := fun _ _ _ => .ok .none
  searchResult := fun _ _ _ => .ok (.dict
    [("results", .list
       [.dict [("id", .str "m1"), ("memory", .str "use kitty")],
        .str "junk",
        .dict [("id", .str "m2")]]),
     ("relations", .none)])
  updateResult := fun _ _ => .ok .none

/-! ## Shared lemmas -/

/-- Filtering with a predicate leaves only elements satisfying it. -/
theorem all_filter_self {α : Type} (p : α → Bool) (xs : List α) :
    (xs.filter p).all p = true := by
  rw [List.all_eq_true]
  intro x hx
  exact (List.mem_filter.mp hx).2

/-- Every `SearchResult` produced by `_validate_search_result` has a
`"results"` list whose items all pass the id/memory shape check. -/
theorem validate_search_result_shape (v r : PyVal)
    (h : validate_search_result v = Except.ok r) :
    (sr_results r).all isValidMemoryItem = true := by
  cases v with
  | list items =>
      simp only [validate_search_result, Except.ok.injEq] at h
      subst h
      simp [sr_results, dictLookup, all_filter_self isValidMemoryItem items]
  | dict entries =>
      simp only [validate_search_result, Except.ok.injEq] at h
      subst h
      rcases hl : dictLookup entries "results" with _ | w
      · simp [sr_results, dictLookup, hl]
      · cases w <;>
          simp [sr_results, dictLookup, hl, all_filter_self]
  | none => simp [validate_search_result] at h
  | bool b => simp [validate_search_result] at h
  | int n => simp [validate_search_result] at h
  | str s => simp [validate_search_result] at h

/-- The `query_roadmap` result is the empty list for every search
outcome, because attribute access on the returned value always raises. -/
theorem query_roadmap_aux (res : Except String PyVal) :
    (match res with
     | .error _ => PyVal.list []
     | .ok search_results =>
        match py_getattr search_results "results" with
        | .ok v => v
        | .error _ => PyVal.list []) = PyVal.list [] := by
  cases res <;> rfl

/-! ## Claim theorems -/

/-- C2: every write operation of `MemoryManager` — `add_with_redaction`
and `update` — hands the external client `redact_secrets(text)` rather
than the raw text: the only client call either performs carries exactly
the redacted text. -/
theorem MemoryManager.redaction_before_every_write
    (redact : String → String) (client : Mem0Client)
    (user_id text memory_id : String) (metadata : Option Metadata) :
    (MemoryManager.add_with_redaction redact client user_id text metadata).2
      = [ClientCall.add (redact text) user_id metadata]
    ∧ (MemoryManager.update redact client memory_id text).2
      = [ClientCall.update (redact text) memory_id] :=
  ⟨rfl, rfl⟩

/-- C3: whenever `MemoryManager.search` returns a result, every item of
its `"results"` list is a dict containing both an `"id"` and a
`"memory"` key; ill-shaped items are dropped by the shape check. -/
theorem MemoryManager.search_results_well_shaped
    (client : Mem0Client) (user_id query : String) (limit : Nat) (r : PyVal)
    (h : (MemoryManager.search client user_id query limit).1 = Except.ok r) :
    (sr_results r).all isValidMemoryItem = true := by
  unfold MemoryManager.search at h
  cases hc : client.searchResult query user_id limit with
  | error e => rw [hc] at h; simp at h
  | ok result =>
      rw [hc] at h
      by_cases hf : result.isFalsy
      · simp only [hf, if_true, Except.ok.injEq] at h
        subst h
        simp [sr_results, dictLookup]
      · simp only [hf, if_false, Bool.false_eq_true] at h
        cases hv : validate_search_result result with
        | error e => rw [hv] at h; simp at h
        | ok v =>
            rw [hv] at h
            simp only [Except.ok.injEq] at h
            subst h
            exact validate_search_result_shape result _ hv

/-- C3 witness: on a concrete client whose search returns one well-shaped
item, one non-dict item, and one dict missing `"memory"`, the returned
`results` list consists of the single well-shaped item and passes the
shape check. -/
theorem MemoryManager.search_results_well_shaped_witness :
    (sr_results (PyVal.dict
      [("results", PyVal.list
         [PyVal.dict [("id", PyVal.str "m1"), ("memory", PyVal.str "use kitty")]]),
       ("relations", PyVal.none)])).all isValidMemoryItem = true :=
  MemoryManager.search_results_well_shaped mixedClient "user" "roadmap pending" 10
    (PyVal.dict
      [("results", PyVal.list
         [PyVal.dict [("id", PyVal.str "m1"), ("memory", PyVal.str "use kitty")]]),
       ("relations", PyVal.none)]) rfl

/-- C4: every `DriftResult` returned by `check_config_drift` has status
`clean`, `modified`, or `error`; its `total_changes` equals the length of
`modified_files`; and on `clean`/`error` the file list is empty and the
count is `0`. -/
theorem check_config_drift_result_invariant
    (redact : String → String) (client : Mem0Client) (user_id : String)
    (env : VCSOutcome) :
    driftResultInv (check_config_drift redact client user_id env).1 = true := by
  cases env with
  | fail_detect e => rfl
  | fail_status t e => rfl
  | ok vcs_type output =>
      unfold check_config_drift
      by_cases hs : (pyStrip output).isEmpty
      · simp [hs, driftResultInv]
      · simp only [hs, Bool.false_eq_true, if_false]
        split <;> simp [driftResultInv]

/-- C5: `check_config_drift` performs a client `add` call if and only if
the VCS commands succeed and the status output is non-empty after
stripping whitespace, and every call it performs is tagged
`{"type": "drift"}`. -/
theorem check_config_drift_write_iff_drift
    (redact : String → String) (client : Mem0Client) (user_id : String)
    (env : VCSOutcome) :
    (((check_config_drift redact client user_id env).2).isEmpty = false
        ↔ vcsHasDrift env = true)
    ∧ ((check_config_drift redact client user_id env).2).all
        (fun c => addCallTypeIs c "drift") = true := by
  cases env with
  | fail_detect e => simp [check_config_drift, vcsHasDrift]
  | fail_status t e => simp [check_config_drift, vcsHasDrift]
  | ok vcs_type output =>
      unfold check_config_drift
      by_cases hs : (pyStrip output).isEmpty
      · simp [hs, vcsHasDrift]
      · simp only [hs, Bool.false_eq_true, if_false]
        refine ⟨?_, ?_⟩
        · simp [MemoryManager.add_with_redaction, vcsHasDrift, hs]
        · simp [MemoryManager.add_with_redaction, addCallTypeIs,
            addCallHasMeta, metaEntryIs]

/-- C7: `query_roadmap` returns the empty list for every client, user,
status, and priority: the result of `MemoryManager.search` is a plain
dict, so the attribute access `search_results.results` raises
`AttributeError` and the handler returns `[]`. -/
theorem query_roadmap_always_empty (client : Mem0Client)
    (user_id status : String) (priority : Option String) :
    (query_roadmap client user_id status priority).1 = PyVal.list [] := by
  unfold query_roadmap
  exact query_roadmap_aux _

/-- C8: the output of `list_active_trials` does not depend on
`min_days_active`: the parameter is discarded and the search query is the
fixed string `"active plugin trials"`. -/
theorem list_active_trials_ignores_min_days (client : Mem0Client)
    (user_id : String) (m1 m2 : Int) :
    list_active_trials client user_id m1 = list_active_trials client user_id m2 :=
  rfl

/-- C9: `ServerConfig` construction accepts `user_id` and `vcs_timeout`
exactly when the string length is in `[1, 50]` and the timeout is in
`[1, 300]`; the `vcs_timeout` default is `10` and the defaults are
accepted. -/
theorem serverConfig_validation_bounds :
    (∀ (u : String) (v : Int),
      configAccepted (mkServerConfig u v) = true
        ↔ (1 ≤ u.length ∧ u.length ≤ 50 ∧ 1 ≤ v ∧ v ≤ 300))
    ∧ vcs_timeout_default = 10
    ∧ mkServerConfig (user_id_default Option.none) vcs_timeout_default
        = Except.ok ⟨"default_user", 10⟩ := by
  refine ⟨?_, rfl, rfl⟩
  intro u v
  unfold mkServerConfig configAccepted
  split_ifs with h1 h2 h3 h4 <;> simp <;> omega

/-- C10: the CLI exposes exactly the three commands `drift-check`,
`context`, and `init-baseline`, and each prints its banner followed by
the value returned by the underlying tool — `check_config_drift`,
`get_config_context` on the given app name, and
`initialize_system_baseline` on the fixed mock data. -/
theorem cli_three_commands_print_tool_results :
    cli_commands = ["drift-check", "context", "init-baseline"]
    ∧ (∀ (redact : String → String) (client : Mem0Client) (user_id : String)
         (env : VCSOutcome),
        cli_drift_check redact client user_id env
          = [.line "Checking for drift...",
             .driftVal (check_config_drift redact client user_id env).1])
    ∧ (∀ (get_config_context : String → PyVal) (app_name : String),
        cli_context get_config_context app_name
          = [.line ("Retrieving context for " ++ app_name ++ "..."),
             .pyOut (get_config_context app_name)])
    ∧ (∀ (redact : String → String) (client : Mem0Client) (user_id : String),
        cli_init_baseline redact client user_id
          = [.line "Initializing baseline with mock data...",
             .line (initialize_system_baseline redact client user_id
                      "manual-cli" cliMockConfigMap cliMockSysMeta).1]) :=
  ⟨rfl, fun _ _ _ _ => rfl, fun _ _ => rfl, fun _ _ _ => rfl⟩

/-- C1 counterexample: the claim says every tool function returns a
human-readable error string when an exception is raised in its body, but
`list_active_trials` (tools/trials.py) returns the empty *list* `[]` when
the search raises — a value that is not a string at all and carries no
error message. -/
theorem tool_error_value_not_a_string_counterexample :
    (list_active_trials (failingClient "mem0 connection refused") "user" 3).1
      = PyVal.list []
    ∧ ((list_active_trials (failingClient "mem0 connection refused")
          "user" 3).1).isStr = false :=
  ⟨rfl, rfl⟩

/-- C1 amended: every tool function catches exceptions raised in its body
and returns a normal value instead of propagating — the string-returning
tools (`initialize_system_baseline`, `commit_contextual_change`,
`track_lifecycle_events`, `log_conceptual_roadmap`, `manage_trial`,
`log_troubleshooting_event`, `ingest_version_history`, `update_memory`)
return a human-readable error string; the list-returning query tools
(`query_roadmap`, `list_active_trials`, `get_troubleshooting_guide`)
return the empty list; and `check_config_drift` returns the
`status="error"` `DriftResult` whose message is a human-readable error
string. -/
theorem tools_catch_exceptions_at_boundary
    (redact : String → String)
    (user_id e manager_name action logic idea_title hypothesis blockers
      priority name success_criteria error_signature root_cause fix_steps
      memory_id new_text vcs output error_keyword status : String)
    (config_map : List AppConfig) (system_metadata : SystemMetadata)
    (data : AppChange) (old_config : AppConfig)
    (new_config : Option AppConfig) (trial_period count : Nat)
    (pr : Option String) (min_days : Int) :
    (initialize_system_baseline redact (failingClient e) user_id manager_name
        config_map system_metadata).1 = "Failed to Initialize Baseline: " ++ e
    ∧ (commit_contextual_change redact (failingClient e) user_id data).1
        = "Error: " ++ e
    ∧ (track_lifecycle_events redact (failingClient e) user_id action
        old_config new_config logic).1 = "Failed to log Lifecycle Event: " ++ e
    ∧ (log_conceptual_roadmap redact (failingClient e) user_id idea_title
        hypothesis blockers priority).1 = "Failed to save Roadmap Entry: " ++ e
    ∧ (manage_trial redact (failingClient e) user_id name trial_period
        success_criteria).1 = "Failed to set Trial for " ++ name ++ ": " ++ e
    ∧ (log_troubleshooting_event redact (failingClient e) user_id
        error_signature root_cause fix_steps).1
        = "Failed to add " ++ error_signature ++ " troubleshooting to memory: " ++ e
    ∧ (ingest_version_history redact (failingClient e) user_id
        (LogOutcome.ok vcs output) count).1 = "Error ingesting history: " ++ e
    ∧ (ingest_version_history redact (failingClient e) user_id
        (LogOutcome.fail_detect e) count).1 = "Error ingesting history: " ++ e
    ∧ (update_memory redact (failingClient e) memory_id new_text).1
        = "Error updating memory[" ++ memory_id ++ "]: " ++ e
    ∧ (check_config_drift redact (failingClient e) user_id
        (VCSOutcome.fail_detect e)).1
        = ⟨"error", "git", [], 0, "Error checking drift: " ++ e⟩
    ∧ (query_roadmap (failingClient e) user_id status pr).1 = PyVal.list []
    ∧ (list_active_trials (failingClient e) user_id min_days).1 = PyVal.list []
    ∧ (get_troubleshooting_guide (failingClient e) user_id error_keyword).1
        = PyVal.list [] := by
  refine ⟨?_, rfl, ?_, rfl, rfl, rfl, rfl, rfl, rfl, rfl, rfl, rfl, rfl⟩
  · rfl
  · cases new_config <;> rfl

/-- C6 counterexample: the claim says every storing tool calls
`add_with_redaction` exactly once, but `check_config_drift` on a clean
repository (empty `git status` output) performs zero client calls. -/
theorem drift_clean_zero_writes_counterexample :
    (check_config_drift (fun s => s) okClient "user"
      (VCSOutcome.ok "git" "")).2 = [] :=
  rfl

/-- C6 amended: every storing tool calls `add_with_redaction` at most
once per invocation and every call carries the tool's fixed
`{"type": tag}` metadata — `baseline`, `change`, `lifecycle`, `roadmap`,
`trial` (with `active: True`), `troubleshoot`, `history`, `drift`.  The
six tools whose bodies reach the store unconditionally
(`initialize_system_baseline`, `commit_contextual_change`,
`track_lifecycle_events`, `log_conceptual_roadmap`, `manage_trial`,
`log_troubleshooting_event`) call exactly once on every invocation;
`ingest_version_history` calls exactly once when `detect_vcs_type()` and
`get_log()` succeed and zero times when either raises;
`check_config_drift` calls exactly once when the stripped VCS status
output is non-empty and zero times otherwise. -/
theorem storing_tools_tag_their_single_write
    (redact : String → String) (client : Mem0Client)
    (user_id manager_name action logic idea_title hypothesis blockers
      priority name success_criteria error_signature root_cause
      fix_steps : String)
    (config_map : List AppConfig) (system_metadata : SystemMetadata)
    (data : AppChange) (old_config : AppConfig)
    (new_config : Option AppConfig) (trial_period count : Nat)
    (envLog : LogOutcome) (env : VCSOutcome) :
    (let calls := (initialize_system_baseline redact client user_id
        manager_name config_map system_metadata).2
     calls.length = 1 ∧ calls.all (fun c => addCallTypeIs c "baseline") = true)
    ∧ (let calls := (commit_contextual_change redact client user_id data).2
       calls.length = 1 ∧ calls.all (fun c => addCallTypeIs c "change") = true)
    ∧ (let calls := (track_lifecycle_events redact client user_id action
          old_config new_config logic).2
       calls.length = 1 ∧ calls.all (fun c => addCallTypeIs c "lifecycle") = true)
    ∧ (let calls := (log_conceptual_roadmap redact client user_id idea_title
          hypothesis blockers priority).2
       calls.length = 1 ∧ calls.all (fun c => addCallTypeIs c "roadmap") = true)
    ∧ (let calls := (manage_trial redact client user_id name trial_period
          success_criteria).2
       calls.length = 1 ∧ calls.all (fun c => addCallTypeIs c "trial"
          && addCallHasMeta c "active" (.bool true)) = true)
    ∧ (let calls := (log_troubleshooting_event redact client user_id
          error_signature root_cause fix_steps).2
       calls.length = 1 ∧ calls.all (fun c => addCallTypeIs c "troubleshoot") = true)
    ∧ (let calls := (ingest_version_history redact client user_id
          envLog count).2
       calls.length ≤ 1
       ∧ (calls.length = 1 ↔ vcsLogObtained envLog = true)
       ∧ calls.all (fun c => addCallTypeIs c "history") = true)
    ∧ (let calls := (check_config_drift redact client user_id env).2
       calls.length ≤ 1
       ∧ (calls.length = 1 ↔ vcsHasDrift env = true)
       ∧ calls.all (fun c => addCallTypeIs c "drift") = true) := by
  refine ⟨⟨rfl, rfl⟩, ⟨rfl, rfl⟩, ⟨rfl, rfl⟩, ⟨rfl, rfl⟩, ⟨rfl, rfl⟩,
    ⟨rfl, rfl⟩, ?_, ?_⟩
  · cases envLog with
    | fail_detect e =>
        exact ⟨Nat.zero_le 1,
          by simp [ingest_version_history, vcsLogObtained], rfl⟩
    | fail_log v e =>
        exact ⟨Nat.zero_le 1,
          by simp [ingest_version_history, vcsLogObtained], rfl⟩
    | ok v out =>
        exact ⟨Nat.le_refl 1,
          by simp [ingest_version_history, MemoryManager.add_with_redaction,
            vcsLogObtained], rfl⟩
  cases env with
  | fail_detect e => exact ⟨by simp [check_config_drift], by simp [check_config_drift, vcsHasDrift], rfl⟩
  | fail_status t e => exact ⟨by simp [check_config_drift], by simp [check_config_drift, vcsHasDrift], rfl⟩
  | ok vcs_type output =>
      unfold check_config_drift
      by_cases hs : (pyStrip output).isEmpty
      · simp [hs, vcsHasDrift]
      · simp only [hs, Bool.false_eq_true, if_false]
        refine ⟨?_, ?_, ?_⟩
        · simp [MemoryManager.add_with_redaction]
        · simp [MemoryManager.add_with_redaction, vcsHasDrift, hs]
        · simp [MemoryManager.add_with_redaction, addCallTypeIs,
            addCallHasMeta, metaEntryIs]

end DotfilesMaintainer
